import Mathlib

set_option maxRecDepth 100000

/-!
Shallow embedding of the AD7745 driver (`src/AD7745_Driver.py`) and proofs
about its register codec, acquisition loop, calibration scan and unit
conversion.  Transport reads and writes are modelled explicitly: a register
file is a function from address to byte, transport writes are recorded as
`(address, byte)` pairs or as events in a trace, and the device readings seen
by the polling/calibration loops are supplied by a function from the current
DAC code (resp. poll index) to the raw sample, matching the "simulated
transport" of the specification.
-/

namespace AD7745

/-! Register addresses and bit masks, from the class constants of `AD7745`. -/

def STATUS_ADDR : Nat := 0x00
def STATUS_EXCERR : Nat := 1 <<< 3
def STATUS_RDY : Nat := 1 <<< 2
def STATUS_RDYVT : Nat := 1 <<< 1
def STATUS_RDYCAP : Nat := 1 <<< 0

def CAP_DATA_H_ADDR : Nat := 0x01
def CAP_DATA_M_ADDR : Nat := 0x02
def CAP_DATA_L_ADDR : Nat := 0x03

def VT_DATA_H_ADDR : Nat := 0x04
def VT_DATA_M_ADDR : Nat := 0x05
def VT_DATA_L_ADDR : Nat := 0x06

def CAP_SETUP_ADDR : Nat := 0x07
def CAP_SETUP_CAPEN : Nat := 1 <<< 7
def CAP_SETUP_CIN2 : Nat := 1 <<< 6
def CAP_SETUP_CAPDIFF : Nat := 1 <<< 5
def CAP_SETUP_CAPCHOP : Nat := 1

def VT_SETUP_ADDR : Nat := 0x08
def VT_SETUP_VTEN : Nat := 1 <<< 7
def VT_SETUP_VTMD1 : Nat := 1 <<< 6
def VT_SETUP_VTMD0 : Nat := 1 <<< 5
def VT_SETUP_EXTREF : Nat := 1 <<< 4
def VT_SETUP_VTSHORT : Nat := 1 <<< 1
def VT_SETUP_VTCHOP : Nat := 1

def EXC_SETUP_ADDR : Nat := 0x09
def EXC_SETUP_CLKCTRL : Nat := 1 <<< 7
def EXC_SETUP_EXCON : Nat := 1 <<< 6
def EXC_SETUP_EXCB : Nat := 1 <<< 5
def EXC_SETUP_UEXCB : Nat := 1 <<< 4
def EXC_SETUP_EXCA : Nat := 1 <<< 3
def EXC_SETUP_UEXCA : Nat := 1 <<< 2
def EXC_SETUP_EXCLVL1 : Nat := 1 <<< 1
def EXC_SETUP_EXCLVL0 : Nat := 1

def CONFIG_ADDR : Nat := 0x0A
def CONFIG_VTFS1 : Nat := 1 <<< 7
def CONFIG_VTFS0 : Nat := 1 <<< 6
def CONFIG_CAPFS2 : Nat := 1 <<< 5
def CONFIG_CAPFS1 : Nat := 1 <<< 4
def CONFIG_CAPFS0 : Nat := 1 <<< 3
def CONFIG_MD2 : Nat := 1 <<< 2
def CONFIG_MD1 : Nat := 1 <<< 1
def CONFIG_MD0 : Nat := 1

def CAP_DAC_A_ADDR : Nat := 0x0B
def CAP_DAC_A_DACAENA : Nat := 1 <<< 7
def CAP_DAC_A_DACA7bit : Nat := 0x7F

def CAP_DAC_B_ADDR : Nat := 0x0C
def CAP_DAC_B_DACBENB : Nat := 1 <<< 7
def CAP_DAC_B_DACB7bit : Nat := 0x7F

def CAP_OFFSET_H_ADDR : Nat := 0x0D
def CAP_OFFSET_L_ADDR : Nat := 0x0E

def CAP_GRAIN_H_ADDR : Nat := 0x0F
def CAP_GRAIN_L_ADDR : Nat := 0x10

def VOLT_GRAIN_H_ADDR : Nat := 0x11
def VOLT_GRAIN_L_ADDR : Nat := 0x12

/-! Bitfield value structures, from the `@dataclass` declarations. -/

structure cap_setup_reg where
  CAPEN : Bool := false
  CIN2 : Bool := false
  CAPDIFF : Bool := false
  CAPCHOP : Bool := false
deriving DecidableEq, Repr

structure vt_setup_reg where
  VTEN : Bool := false
  VTMD1 : Bool := false
  VTMD0 : Bool := false
  EXTREF : Bool := false
  VTSHORT : Bool := false
  VTCHOP : Bool := false
deriving DecidableEq, Repr

structure exc_setup_reg where
  CLKCTRL : Bool := false
  EXCON : Bool := false
  EXCB : Bool := false
  UEXCB : Bool := false
  EXCA : Bool := false
  UEXCA : Bool := false
  EXCLVL1 : Bool := false
  EXCLVL0 : Bool := false
deriving DecidableEq, Repr

structure configuration_reg where
  VTFS1 : Bool := false
  VTFS0 : Bool := false
  CAPFS2 : Bool := false
  CAPFS1 : Bool := false
  CAPFS0 : Bool := false
  MD2 : Bool := false
  MD1 : Bool := false
  MD0 : Bool := false
deriving DecidableEq, Repr

/-- The `cap_daca` dataclass: the code field is a Python `int`, so `Int`. -/
structure cap_daca_reg where
  DACAENA : Bool := false
  DACA7bit : Int := 0
deriving DecidableEq, Repr

structure cap_dacb_reg where
  DACBENB : Bool := false
  DACB7bit : Int := 0
deriving DecidableEq, Repr

structure status_reg where
  EXCERR : Bool := false
  RDY : Bool := false
  RDYVT : Bool := false
  RDYCAP : Bool := false
deriving DecidableEq, Repr

/-!
Register codec.  The setters accumulate `value += mask` for each set field
(the masks are disjoint single bits, so the sum is the bitwise OR); the
getters test `bool(byte & mask)` per field.  Each `*_encode` below is the
byte computed by the corresponding property setter, each `*_decode` the
structure built by the corresponding property getter.
-/

/-- Byte written by the `cap_setup` setter (source lines 334-358). -/
def cap_setup_encode (val : cap_setup_reg) : Nat :=
  (if val.CAPEN then CAP_SETUP_CAPEN else 0)
    + (if val.CIN2 then CAP_SETUP_CIN2 else 0)
    + (if val.CAPDIFF then CAP_SETUP_CAPDIFF else 0)
    + (if val.CAPCHOP then CAP_SETUP_CAPCHOP else 0)

/-- Structure built by the `cap_setup` getter from the byte read (313-332). -/
def cap_setup_decode (b : Nat) : cap_setup_reg where
  CAPEN := b &&& CAP_SETUP_CAPEN != 0
  CIN2 := b &&& CAP_SETUP_CIN2 != 0
  CAPDIFF := b &&& CAP_SETUP_CAPDIFF != 0
  CAPCHOP := b &&& CAP_SETUP_CAPCHOP != 0

/-- Byte written by the `vt_setup` setter (397-437). -/
def vt_setup_encode (val : vt_setup_reg) : Nat :=
  (if val.VTEN then VT_SETUP_VTEN else 0)
    + (if val.VTMD1 then VT_SETUP_VTMD1 else 0)
    + (if val.VTMD0 then VT_SETUP_VTMD0 else 0)
    + (if val.EXTREF then VT_SETUP_EXTREF else 0)
    + (if val.VTSHORT then VT_SETUP_VTSHORT else 0)
    + (if val.VTCHOP then VT_SETUP_VTCHOP else 0)

/-- Structure built by the `vt_setup` getter from the byte read (360-395). -/
def vt_setup_decode (b : Nat) : vt_setup_reg where
  VTEN := b &&& VT_SETUP_VTEN != 0
  VTMD1 := b &&& VT_SETUP_VTMD1 != 0
  VTMD0 := b &&& VT_SETUP_VTMD0 != 0
  EXTREF := b &&& VT_SETUP_EXTREF != 0
  VTSHORT := b &&& VT_SETUP_VTSHORT != 0
  VTCHOP := b &&& VT_SETUP_VTCHOP != 0

/-- Byte written by the `exc_setup` setter (481-528). -/
def exc_setup_encode (val : exc_setup_reg) : Nat :=
  (if val.CLKCTRL then EXC_SETUP_CLKCTRL else 0)
    + (if val.EXCON then EXC_SETUP_EXCON else 0)
    + (if val.EXCB then EXC_SETUP_EXCB else 0)
    + (if val.UEXCB then EXC_SETUP_UEXCB else 0)
    + (if val.EXCA then EXC_SETUP_EXCA else 0)
    + (if val.UEXCA then EXC_SETUP_UEXCA else 0)
    + (if val.EXCLVL1 then EXC_SETUP_EXCLVL1 else 0)
    + (if val.EXCLVL0 then EXC_SETUP_EXCLVL0 else 0)

/-- Structure built by the `exc_setup` getter from the byte read (439-479). -/
def exc_setup_decode (b : Nat) : exc_setup_reg where
  CLKCTRL := b &&& EXC_SETUP_CLKCTRL != 0
  EXCON := b &&& EXC_SETUP_EXCON != 0
  EXCB := b &&& EXC_SETUP_EXCB != 0
  UEXCB := b &&& EXC_SETUP_UEXCB != 0
  EXCA := b &&& EXC_SETUP_EXCA != 0
  UEXCA := b &&& EXC_SETUP_UEXCA != 0
  EXCLVL1 := b &&& EXC_SETUP_EXCLVL1 != 0
  EXCLVL0 := b &&& EXC_SETUP_EXCLVL0 != 0

/-- Byte written by the `configuration` setter (601-663). -/
def configuration_encode (val : configuration_reg) : Nat :=
  (if val.VTFS1 then CONFIG_VTFS1 else 0)
    + (if val.VTFS0 then CONFIG_VTFS0 else 0)
    + (if val.CAPFS2 then CONFIG_CAPFS2 else 0)
    + (if val.CAPFS1 then CONFIG_CAPFS1 else 0)
    + (if val.CAPFS0 then CONFIG_CAPFS0 else 0)
    + (if val.MD2 then CONFIG_MD2 else 0)
    + (if val.MD1 then CONFIG_MD1 else 0)
    + (if val.MD0 then CONFIG_MD0 else 0)

/-- Structure built by the `configuration` getter from the byte read (530-599).
The getter reads 3 bytes at `CONFIG_ADDR` but only decodes element `[0]`. -/
def configuration_decode (b : Nat) : configuration_reg where
  VTFS1 := b &&& CONFIG_VTFS1 != 0
  VTFS0 := b &&& CONFIG_VTFS0 != 0
  CAPFS2 := b &&& CONFIG_CAPFS2 != 0
  CAPFS1 := b &&& CONFIG_CAPFS1 != 0
  CAPFS0 := b &&& CONFIG_CAPFS0 != 0
  MD2 := b &&& CONFIG_MD2 != 0
  MD1 := b &&& CONFIG_MD1 != 0
  MD0 := b &&& CONFIG_MD0 != 0

/-!
Register reads.  A register file is `mem : Nat → Nat` (address to byte);
`read_byte mem addr len` returns the `len` sequential bytes starting at
`addr`, as the driver's `read_byte(addr, byte_len)` does.
-/

def read_byte (mem : Nat → Nat) (addr : Nat) (byte_len : Nat) : List Nat :=
  (List.range byte_len).map (fun i => mem (addr + i))

/-- `status` getter (257-284): decode the byte read at `STATUS_ADDR`. -/
def status (mem : Nat → Nat) : status_reg :=
  let read_string := (read_byte mem STATUS_ADDR 1).getD 0 0
  { EXCERR := read_string &&& STATUS_EXCERR != 0
    RDY := read_string &&& STATUS_RDY != 0
    RDYVT := read_string &&& STATUS_RDYVT != 0
    RDYCAP := read_string &&& STATUS_RDYCAP != 0 }

/-- `cap_data` getter (286-298): 3 bytes from `CAP_DATA_H_ADDR`, big-endian. -/
def cap_data (mem : Nat → Nat) : Nat :=
  let read_data := read_byte mem CAP_DATA_H_ADDR 3
  let cap_h := read_data.getD 0 0
  let cap_m := read_data.getD 1 0
  let cap_l := read_data.getD 2 0
  (cap_h <<< 16) + (cap_m <<< 8) + cap_l

/-- `vt_data` getter (300-311).  The source reads its 3 bytes starting at
`CAP_DATA_H_ADDR` (0x01), not at `VT_DATA_H_ADDR` (0x04) as its own doc
comment states. -/
def vt_data (mem : Nat → Nat) : Nat :=
  let read_data := read_byte mem CAP_DATA_H_ADDR 3
  let vt_h := read_data.getD 0 0
  let vt_m := read_data.getD 1 0
  let vt_l := read_data.getD 2 0
  (vt_h <<< 16) + (vt_m <<< 8) + vt_l

/-- `cap_offset` getter (735-747): 2 bytes from `CAP_OFFSET_H_ADDR`. -/
def cap_offset (mem : Nat → Nat) : Nat :=
  let reg_val := read_byte mem CAP_OFFSET_H_ADDR 2
  let off_h := reg_val.getD 0 0
  let off_l := reg_val.getD 1 0
  (off_h <<< 8) + off_l

/-- `cap_gain` getter (763-775).  The source reads its 2 bytes starting at
`CAP_OFFSET_H_ADDR` (0x0D), not at `CAP_GRAIN_H_ADDR` (0x0F) as its own doc
comment states. -/
def cap_gain (mem : Nat → Nat) : Nat :=
  let reg_val := read_byte mem CAP_OFFSET_H_ADDR 2
  let grain_h := reg_val.getD 0 0
  let grain_l := reg_val.getD 1 0
  (grain_h <<< 8) + grain_l

/-- `volt_gain` getter (791-803): 2 bytes from `VOLT_GRAIN_H_ADDR`. -/
def volt_gain (mem : Nat → Nat) : Nat :=
  let reg_val := read_byte mem VOLT_GRAIN_H_ADDR 2
  let grain_h := reg_val.getD 0 0
  let grain_l := reg_val.getD 1 0
  (grain_h <<< 8) + grain_l

/-!
DAC-trim setters.  A setter either raises `ValueError` before any transport
access (modelled as `none`) or performs a list of transport writes, each an
`(address, byte)` pair.  The code field is validated first; only in-range
(hence nonnegative) codes reach the write, where Python's `(1 << 7) | code`
on the in-range `int` equals `(1 <<< 7) ||| code.toNat`.
-/

/-- `cap_daca` setter (681-698): rejects codes above 127 or below 0, else
writes one byte to `CAP_DAC_A_ADDR` with the enable flag in bit 7. -/
def cap_daca_set (val : cap_daca_reg) : Option (List (Nat × Nat)) :=
  if val.DACA7bit > 127 ∨ val.DACA7bit < 0 then
    none
  else if val.DACAENA then
    some [(CAP_DAC_A_ADDR, (1 <<< 7) ||| val.DACA7bit.toNat)]
  else
    some [(CAP_DAC_A_ADDR, val.DACA7bit.toNat)]

/-- `cap_daca` getter (665-679): decode bit 7 and the low 7 bits. -/
def cap_daca_get (b : Nat) : cap_daca_reg where
  DACAENA := b &&& CAP_DAC_A_DACAENA != 0
  DACA7bit := ((b &&& CAP_DAC_A_DACA7bit : Nat) : Int)

/-- `cap_dacb` setter (716-733).  The source's bound check is
`val.DACB7bit > 177 or val.DACB7bit < 0` — 177, not 127. -/
def cap_dacb_set (val : cap_dacb_reg) : Option (List (Nat × Nat)) :=
  if val.DACB7bit > 177 ∨ val.DACB7bit < 0 then
    none
  else if val.DACBENB then
    some [(CAP_DAC_B_ADDR, (1 <<< 7) ||| val.DACB7bit.toNat)]
  else
    some [(CAP_DAC_B_ADDR, val.DACB7bit.toNat)]

/-- `cap_dacb` getter (700-714). -/
def cap_dacb_get (b : Nat) : cap_dacb_reg where
  DACBENB := b &&& CAP_DAC_B_DACBENB != 0
  DACB7bit := ((b &&& CAP_DAC_B_DACB7bit : Nat) : Int)

/-!
Unit conversion.  `cap_val_to_pf` computes `cap_val * (4.096 / 0x800000)` in
Python floats; the arithmetic is modelled exactly over `ℚ`, with the literal
`4.096` as the exact decimal `4096 / 1000`.
-/

/-- `cap_val_to_pf` (836-839) over exact rationals. -/
def cap_val_to_pf (cap_val : ℚ) : ℚ :=
  cap_val * (4096 / 1000 / 0x800000)

/-- `cap_dac_lsb` computation (1058-1074) over exact rationals, from the
16-bit gain-calibration value. -/
def cap_dac_lsb (gain : ℚ) : ℚ :=
  let f_gain_cal := (2 ^ 16 + gain) / 2 ^ 16
  let c_ref := (4096 / 1000) * f_gain_cal
  let c_dac_range := c_ref * (32 / 10)
  c_dac_range / 127

/-!
Read-modify-write of the configuration register.  `cap_filter` and the
single-shot rewrite in `get_raw_cap_val` both read the current configuration
struct, change only their target fields and write the whole struct back.
-/

inductive CapFilter where
  | CONV87Hz | CONV79Hz | CONV44Hz | CONV22Hz
  | CONV14Hz | CONV11Hz | CONV9Hz | CONV8Hz
deriving DecidableEq, Repr

/-- Field update performed by `cap_filter` (993-1023) on the configuration
struct it read. -/
def cap_filter_update (conf_val : configuration_reg) (filter_setting : CapFilter) :
    configuration_reg :=
  match filter_setting with
  | .CONV87Hz => { conf_val with CAPFS2 := false, CAPFS1 := false, CAPFS0 := false }
  | .CONV79Hz => { conf_val with CAPFS2 := false, CAPFS1 := false, CAPFS0 := true }
  | .CONV44Hz => { conf_val with CAPFS2 := false, CAPFS1 := true, CAPFS0 := false }
  | .CONV22Hz => { conf_val with CAPFS2 := false, CAPFS1 := true, CAPFS0 := true }
  | .CONV14Hz => { conf_val with CAPFS2 := true, CAPFS1 := false, CAPFS0 := false }
  | .CONV11Hz => { conf_val with CAPFS2 := true, CAPFS1 := false, CAPFS0 := true }
  | .CONV9Hz => { conf_val with CAPFS2 := true, CAPFS1 := true, CAPFS0 := false }
  | .CONV8Hz => { conf_val with CAPFS2 := true, CAPFS1 := true, CAPFS0 := true }

/-- Byte written back to `CONFIG_ADDR` by `cap_filter` when the configuration
register currently holds byte `b`. -/
def cap_filter_write (b : Nat) (filter_setting : CapFilter) : Nat :=
  configuration_encode (cap_filter_update (configuration_decode b) filter_setting)

/-- Byte written back to `CONFIG_ADDR` by the single-shot rewrite at the start
of `get_raw_cap_val` (861-866: `MD0 := False, MD1 := True, MD2 := False`) when
the configuration register currently holds byte `b`. -/
def single_shot_write (b : Nat) : Nat :=
  configuration_encode
    { configuration_decode b with MD0 := false, MD1 := true, MD2 := false }

/-!
Acquisition (`get_raw_cap_val`, 852-881).  The status bytes observed by the
polling loop are a stream `s : Nat → Nat` (poll index to status byte); the
capacitance data register holds `cap`.  Wall-clock timeout is modelled by
`fuel`, the number of further polls permitted after the current one: the
source checks the timeout at the end of an iteration, so every iteration
reads status first, and exhausted fuel raises the timeout error.  Each
transport interaction is recorded as an event.
-/

inductive AcqEv where
  /-- configuration write entering single-shot mode (only when not in
  continuous-conversion mode) -/
  | configWrite (b : Nat)
  /-- one read of the status register -/
  | statusRead
  /-- one 3-byte read of the capacitance data register -/
  | capRead
  /-- the fault indicator (`setLEDRGB(255, 0, 0)`) -/
  | led
deriving DecidableEq, Repr

inductive AcqResult where
  /-- the raw capacitance count returned -/
  | data (v : Nat)
  /-- `IOError` for an excitation fault -/
  | hwFault
  /-- `IOError` for the timeout -/
  | timedOut
deriving DecidableEq, Repr

/-- The polling loop of `get_raw_cap_val` (868-881): read status; if
`RDYCAP is False` return the capacitance data; else if `EXCERR` signal the
indicator and raise; else check the timeout and poll again. -/
def acq_loop (s : Nat → Nat) (cap : Nat) (fuel i : Nat) : AcqResult × List AcqEv :=
  let stat := s i
  if stat &&& STATUS_RDYCAP = 0 then
    (.data cap, [.statusRead, .capRead])
  else if stat &&& STATUS_EXCERR ≠ 0 then
    (.hwFault, [.statusRead, .led])
  else
    match fuel with
    | 0 => (.timedOut, [.statusRead, .led])
    | fuel' + 1 =>
      let rest := acq_loop s cap fuel' (i + 1)
      (rest.1, .statusRead :: rest.2)

/-- `get_raw_cap_val` (852-881): when not in continuous-conversion mode first
rewrite the configuration register (whose current byte is `conf`) for
single-shot conversion, then run the polling loop. -/
def get_raw_cap_val (cont_conv : Bool) (conf : Nat) (s : Nat → Nat) (cap : Nat)
    (fuel : Nat) : AcqResult × List AcqEv :=
  let pre : List AcqEv := if cont_conv then [] else [.configWrite (single_shot_write conf)]
  let r := acq_loop s cap fuel 0
  (r.1, pre ++ r.2)

/-!
Calibration (`cal_low_val`, 1025-1056).  The simulated transport returns the
raw sample `r c` whenever the capacitance channel is read with the DAC-trim A
code set to `c` (deterministic per code, as in the specification's simulated
transports).  Transport interactions are recorded as events: the flush reads
before any DAC write are reads at the pre-existing DAC code.

Note line 1033, `self.cap_daca_reg(DACAENA=True, DACA7bit=0)`: it constructs
a dataclass value and discards it — it is not an assignment to the
`cap_daca` property, so no transport write happens there.
-/

inductive CalEv where
  /-- one transport write of the DAC-trim A register byte -/
  | writeDacA (b : Nat)
  /-- one capacitance sample taken via `get_raw_cap_val` -/
  | readCap
  /-- the fault indicator (`setLEDRGB(255, 0, 0)`) -/
  | led
deriving DecidableEq, Repr

inductive CalResult where
  /-- the value `return`ed -/
  | ok (code : Nat)
  /-- the `IOError` raised, reporting the last attempted value and raw
  reading from its message -/
  | calErr (last : Nat) (raw : Nat)
  /-- `ValueError` raised by the `cap_daca` setter on an out-of-range code -/
  | valErr
deriving DecidableEq, Repr

/-- The scan loop of `cal_low_val` (1038-1048): while `start <= 127`, set the
DAC to `start`, take a throwaway and a measured sample; a positive measured
sample advances `start`, otherwise the loop breaks.  Returns the final
`start`.  `start` strictly increases and the loop exits once it passes 127,
so the loop body runs at most 128 times and any `fuel ≥ 129` yields the
loop's exact result; `cal_low_val` below supplies `fuel = 129`. -/
def scan_loop (r : Nat → Nat) : Nat → Nat → Nat
  | 0, start => start
  | fuel + 1, start =>
    if start ≤ 127 then
      if r start > 0 then scan_loop r fuel (start + 1) else start
    else start

/-- Events of the scan loop: per iteration one DAC write and two samples. -/
def scan_loop_trace (r : Nat → Nat) : Nat → Nat → List CalEv
  | 0, _ => []
  | fuel + 1, start =>
    if start ≤ 127 then
      .writeDacA ((1 <<< 7) ||| start) :: .readCap :: .readCap ::
        (if r start > 0 then scan_loop_trace r fuel (start + 1) else [])
    else []

/-- `cal_low_val` (1025-1056).  After the scan, the DAC is stepped back to
`start - 1` (the setter raises `ValueError` when that is out of `[0, 127]`,
i.e. when `start = 0` — Python's `start - 1 = -1` — or `start > 128`); one
throwaway sample is taken, then the success test
`get_raw_cap_val() != 0 and get_raw_cap_val() != 0xFFFFFF` draws one sample
per operand (the second only if the first is nonzero) and on success the
function returns `start`; on failure the indicator is signalled and the
raised error's message draws one more sample. -/
def cal_low_val (r : Nat → Nat) (st_val : Nat) : CalResult × List CalEv :=
  let flush : List CalEv := [.readCap, .readCap]
  let start := scan_loop r 129 st_val
  let loopT := scan_loop_trace r 129 st_val
  if start = 0 ∨ start - 1 > 127 then
    (.valErr, flush ++ loopT)
  else
    let post : List CalEv := [.writeDacA ((1 <<< 7) ||| (start - 1)), .readCap]
    let v := r (start - 1)
    if v ≠ 0 then
      if v ≠ 0xFFFFFF then
        (.ok start, flush ++ loopT ++ post ++ [.readCap, .readCap])
      else
        (.calErr start v, flush ++ loopT ++ post ++ [.readCap, .readCap, .led, .readCap])
    else
      (.calErr start v, flush ++ loopT ++ post ++ [.readCap, .led, .readCap])

/-- Simulated transport of the specification's calibration test: readings are
nonzero (100) for DAC codes 0-49 and zero from code 50 onward. -/
def r49 : Nat → Nat := fun c => if c < 50 then 100 else 0

/-- If every reading from `start` through code 127 is positive, the scan loop
runs off the top of the range and ends with `start = 128`, given enough
fuel. -/
theorem scan_loop_eq_of_pos (r : Nat → Nat) :
    ∀ fuel start, start ≤ 128 → 128 ≤ start + fuel →
      (∀ c, start ≤ c → c ≤ 127 → 0 < r c) → scan_loop r fuel start = 128 := by
  intro fuel
  induction fuel with
  | zero =>
    intro start h1 h2 _
    have : start = 128 := by omega
    simp [scan_loop, this]
  | succ fuel ih =>
    intro start h1 h2 hr
    by_cases hle : start ≤ 127
    · have hpos : 0 < r start := hr start le_rfl hle
      have : scan_loop r (fuel + 1) start = scan_loop r fuel (start + 1) := by
        simp [scan_loop, hle, hpos]
      rw [this]
      exact ih (start + 1) (by omega) (by omega) (fun c hc1 hc2 => hr c (by omega) hc2)
    · have : start = 128 := by omega
      simp [scan_loop, this]

end AD7745

/-- Claim C1: with readings nonzero for DAC codes 0-49 and zero from code 50
onward (and the confirmation sample at the stepped-back code 49 nonzero and
below 0xFFFFFF), `cal_low_val` returns 50 — the variable `start` — and not 49,
the last scanned code with nonzero headroom that the DAC was actually stepped
back to.  The claim (and the function's own doc comment, "returns the value
that the capdac was set to") says 49. -/
theorem cal_low_val_c1_failing_input_eval :
    (AD7745.cal_low_val AD7745.r49 0).1 = AD7745.CalResult.ok 50 ∧
      (AD7745.cal_low_val AD7745.r49 0).1 ≠ AD7745.CalResult.ok 49 := by
  decide

/-- Claim C2 counterexample: a status stream in which every status read
reports the excitation-fault flag (byte 0x08: EXCERR set, RDYCAP clear) makes
`get_raw_cap_val` return the capacitance data on the very first poll — the
`RDYCAP is False` branch is tested before the `EXCERR` branch — so no
hardware-fault error is raised and the capacitance data register is read. -/
theorem get_raw_cap_val_c2_counterexample :
    AD7745.get_raw_cap_val true 0 (fun _ => 0x08) 0x123456 5
        = (AD7745.AcqResult.data 0x123456, [AD7745.AcqEv.statusRead, AD7745.AcqEv.capRead]) ∧
      (AD7745.get_raw_cap_val true 0 (fun _ => 0x08) 0x123456 5).1 ≠ AD7745.AcqResult.hwFault := by
  decide

/-- Claim C2 (amended): for every acquisition call in which every status read
reports the excitation-fault flag set and the capacitance-ready bit set (no
fresh data available), a hardware-fault error is raised on the very first
status read, the fault indicator is signalled, and the capacitance data
register is never read. -/
theorem get_raw_cap_val_c2_amended (cont_conv : Bool) (conf : Nat) (s : Nat → Nat)
    (cap fuel : Nat)
    (h : ∀ i, s i &&& AD7745.STATUS_EXCERR ≠ 0 ∧ s i &&& AD7745.STATUS_RDYCAP ≠ 0) :
    AD7745.get_raw_cap_val cont_conv conf s cap fuel
      = (AD7745.AcqResult.hwFault,
          (if cont_conv then []
            else [AD7745.AcqEv.configWrite (AD7745.single_shot_write conf)])
            ++ [AD7745.AcqEv.statusRead, AD7745.AcqEv.led]) := by
  have h0 := h 0
  unfold AD7745.get_raw_cap_val AD7745.acq_loop
  simp [h0.1, h0.2]

/-- Witness for claim C2 (amended) at the constant status byte 0x09
(EXCERR and RDYCAP both set). -/
theorem get_raw_cap_val_c2_witness :
    AD7745.get_raw_cap_val true 0 (fun _ => 0x09) 0 3
      = (AD7745.AcqResult.hwFault, [AD7745.AcqEv.statusRead, AD7745.AcqEv.led]) := by
  have h := get_raw_cap_val_c2_amended true 0 (fun _ => 0x09) 0 3
    (fun i =>
      ⟨by change (0x09 : Nat) &&& AD7745.STATUS_EXCERR ≠ 0; decide,
        by change (0x09 : Nat) &&& AD7745.STATUS_RDYCAP ≠ 0; decide⟩)
  simpa using h

/-- Claim C3 counterexample: with readings that never reach zero (constant 5),
`cal_low_val` falls through the scan and silently returns 128 — one past the
top code — instead of raising a calibration error. -/
theorem cal_low_val_c3_counterexample :
    (AD7745.cal_low_val (fun _ => 5) 0).1 = AD7745.CalResult.ok 128 := by
  decide

/-- Claim C3 (amended): when the measured sample is nonzero at every code from
the floor through 127, the scan falls through with `start = 128`; the
procedure then raises the calibration error (reporting last attempted value
128 and the raw reading) only when the confirmation sample at the stepped-back
code 127 is exactly 0xFFFFFF, and otherwise silently returns 128. -/
theorem cal_low_val_c3_amended (r : Nat → Nat) (st_val : Nat) (hst : st_val ≤ 127)
    (hr : ∀ c, st_val ≤ c → c ≤ 127 → 0 < r c) :
    (AD7745.cal_low_val r st_val).1 =
      if r 127 = 0xFFFFFF then AD7745.CalResult.calErr 128 (r 127)
      else AD7745.CalResult.ok 128 := by
  have hscan : AD7745.scan_loop r 129 st_val = 128 :=
    AD7745.scan_loop_eq_of_pos r 129 st_val (by omega) (by omega) hr
  have hv : 0 < r 127 := hr 127 hst le_rfl
  by_cases hFF : r 127 = 0xFFFFFF <;>
    simp [AD7745.cal_low_val, hscan, hv.ne', hFF]

/-- Witness for claim C3 (amended) at the constant reading 0xFFFFFF: the scan
falls through and the confirmation sample is full-scale, so the calibration
error is raised reporting 128 and 0xFFFFFF. -/
theorem cal_low_val_c3_witness :
    (AD7745.cal_low_val (fun _ => 0xFFFFFF) 0).1 = AD7745.CalResult.calErr 128 0xFFFFFF := by
  have h := cal_low_val_c3_amended (fun _ => 0xFFFFFF) 0 (by decide)
    (fun c _ _ => by change (0 : Nat) < 0xFFFFFF; decide)
  simpa using h

/-- Claim C4: on the register file `mem a = a` (each address holds its own
value, so reads at different addresses are distinguishable), `vt_data`
assembles the bytes at 0x01-0x03 — the capacitance data registers — rather
than 0x04-0x06, and `cap_gain` assembles the bytes at 0x0D-0x0E — the
capacitance offset registers — rather than 0x0F-0x10, contradicting the fixed
chip addresses the claim (and the source's own doc comments) assign them. -/
theorem vt_data_cap_gain_c4_eval :
    AD7745.vt_data (fun a => a) = 0x010203 ∧
      AD7745.vt_data (fun a => a) ≠ 0x040506 ∧
      AD7745.cap_gain (fun a => a) = 0x0D0E ∧
      AD7745.cap_gain (fun a => a) ≠ 0x0F10 := by
  decide

/-- Claim C5: the DAC B setter's bound check reads `> 177`, not `> 127`, so
the out-of-range code 150 passes validation and one transport write of byte
150 to the DAC B register is performed; the DAC A setter rejects the same
code with a validation error and zero writes. -/
theorem cap_dacb_set_c5_eval :
    AD7745.cap_dacb_set { DACBENB := false, DACB7bit := 150 }
        = some [(AD7745.CAP_DAC_B_ADDR, 150)] ∧
      (150 : Int) > 127 ∧
      AD7745.cap_daca_set { DACAENA := false, DACA7bit := 150 } = none := by
  decide

/-- Claim C6: running `cal_low_val` with floor 5 (readings as in `r49`), the
first three transport events are two capacitance reads (the stale-sample
flush) followed by the first DAC-trim A write, which carries code 5, not
code 0: the `cap_daca_reg(DACAENA=True, DACA7bit=0)` on line 1033 constructs
a value without assigning it to the `cap_daca` property, so no reset write
precedes the flush. -/
theorem cal_low_val_c6_trace_eval :
    (AD7745.cal_low_val AD7745.r49 5).2.take 3
      = [AD7745.CalEv.readCap, AD7745.CalEv.readCap,
          AD7745.CalEv.writeDacA ((1 <<< 7) ||| 5)] := by
  decide

/-- Claim C7: decoding the byte produced by encoding any value of the four
bitfield register structures — capacitance setup, voltage/temperature setup,
excitation setup, mode configuration — yields the value back, for every
combination of boolean fields. -/
theorem codec_c7_roundtrip :
    (∀ S : AD7745.cap_setup_reg,
        AD7745.cap_setup_decode (AD7745.cap_setup_encode S) = S) ∧
      (∀ S : AD7745.vt_setup_reg,
        AD7745.vt_setup_decode (AD7745.vt_setup_encode S) = S) ∧
      (∀ S : AD7745.exc_setup_reg,
        AD7745.exc_setup_decode (AD7745.exc_setup_encode S) = S) ∧
      (∀ S : AD7745.configuration_reg,
        AD7745.configuration_decode (AD7745.configuration_encode S) = S) := by
  refine ⟨?_, ?_, ?_, ?_⟩
  · intro S; obtain ⟨a, b, c, d⟩ := S; revert a b c d; decide
  · intro S; obtain ⟨a, b, c, d, e, f⟩ := S; revert a b c d e f; decide
  · intro S; obtain ⟨a, b, c, d, e, f, g, h⟩ := S; revert a b c d e f g h; decide
  · intro S; obtain ⟨a, b, c, d, e, f, g, h⟩ := S; revert a b c d e f g h; decide

/-- Claim C8: `cap_val_to_pf` equals `raw * (4.096 / 0x800000)` (the float
arithmetic modelled exactly over the rationals): raw 0 maps to 0, raw
0x800000 maps to 4.096 pF, and the map is additive (linear) and monotonic. -/
theorem cap_val_to_pf_c8 :
    AD7745.cap_val_to_pf 0 = 0 ∧
      AD7745.cap_val_to_pf 0x800000 = 4096 / 1000 ∧
      (∀ c : ℚ, AD7745.cap_val_to_pf c = c * (4096 / 1000 / 0x800000)) ∧
      (∀ a b : ℚ, AD7745.cap_val_to_pf (a + b)
        = AD7745.cap_val_to_pf a + AD7745.cap_val_to_pf b) ∧
      (∀ a b : ℚ, a ≤ b → AD7745.cap_val_to_pf a ≤ AD7745.cap_val_to_pf b) := by
  refine ⟨by norm_num [AD7745.cap_val_to_pf], by norm_num [AD7745.cap_val_to_pf],
    fun c => rfl, fun a b => by simp [AD7745.cap_val_to_pf, add_mul],
    fun a b hab => ?_⟩
  exact mul_le_mul_of_nonneg_right hab (by norm_num)

/-- Witness for claim C8's monotonicity at 3 ≤ 7. -/
theorem cap_val_to_pf_c8_witness :
    AD7745.cap_val_to_pf 3 ≤ AD7745.cap_val_to_pf 7 :=
  cap_val_to_pf_c8.2.2.2.2 3 7 (by norm_num)

/-- Claim C9: for every starting configuration byte, the byte `cap_filter`
writes back agrees with it on the voltage-filter bits (7, 6) and the mode
bits (2, 1, 0) — mask 0xC7 — changing only the capacitance-filter bits, and
the byte the single-shot rewrite at the start of acquisition writes back
agrees with it on everything except the mode bits — mask 0xF8. -/
theorem config_rmw_c9_frame :
    ∀ f : AD7745.CapFilter, ∀ b : Nat, b < 256 →
      AD7745.cap_filter_write b f &&& 0xC7 = b &&& 0xC7 ∧
        AD7745.single_shot_write b &&& 0xF8 = b &&& 0xF8 := by
  intro f
  cases f <;> decide

/-- Witness for claim C9 at the configuration byte 0xA7. -/
theorem config_rmw_c9_witness :
    AD7745.cap_filter_write 0xA7 AD7745.CapFilter.CONV22Hz &&& 0xC7 = 0xA7 &&& 0xC7 ∧
      AD7745.single_shot_write 0xA7 &&& 0xF8 = 0xA7 &&& 0xF8 :=
  config_rmw_c9_frame AD7745.CapFilter.CONV22Hz 0xA7 (by decide)

/-- Claim C10: for every enable flag and every code in [0, 127], the DAC A
setter performs exactly one write whose byte packs the enable flag into bit 7
and the code into bits 0-6, and the getter decodes that byte back to exactly
the same flag and code. -/
theorem cap_daca_c10_roundtrip :
    ∀ (e : Bool) (n : Nat), n < 128 →
      AD7745.cap_daca_set { DACAENA := e, DACA7bit := (n : Int) }
          = some [(AD7745.CAP_DAC_A_ADDR, if e then (1 <<< 7) ||| n else n)] ∧
        AD7745.cap_daca_get (if e then (1 <<< 7) ||| n else n)
          = { DACAENA := e, DACA7bit := (n : Int) } := by
  decide

/-- Witness for claim C10 at enabled, code 42. -/
theorem cap_daca_c10_witness :
    AD7745.cap_daca_set { DACAENA := true, DACA7bit := (42 : Int) }
        = some [(AD7745.CAP_DAC_A_ADDR, (1 <<< 7) ||| 42)] ∧
      AD7745.cap_daca_get ((1 <<< 7) ||| 42)
        = { DACAENA := true, DACA7bit := (42 : Int) } := by
  have h := cap_daca_c10_roundtrip true 42 (by decide)
  simpa using h
